import Mathlib

/-!
Verification of the whatsapp-agent message-processing pipeline.

The definitions below are a shallow embedding of the TypeScript sources:
the Context Store queries (src/services/db.ts), the classifier and the
outbound send (src/services/twilio.ts), moderation and prompt assembly
(src/services/openai.ts), and the pipeline driver
(src/services/message-processor.ts).  External capabilities (store,
moderation, transcription, generation, outbound provider) are modelled by
explicit outcome values in an environment record; thrown JS exceptions are
modelled with Except / an explicit thrown constructor; timestamps are Nat.
-/

namespace WhatsappAgent

/-- Message authorship role (types.ts MessageRole). -/
inductive MessageRole where
  | system
  | user
  | assistant
  deriving DecidableEq, Repr

/-- Message kind (types.ts MessageType). -/
inductive MessageType where
  | text
  | image
  | audio
  | command
  deriving DecidableEq, Repr

/-- A persisted message row (prisma schema model Message; ids and timestamps
abstracted to Nat). -/
structure Message where
  id : Nat
  userId : Nat
  role : MessageRole
  type : MessageType
  content : String
  isForwarded : Bool := false
  moderationReason : Option String := none
  mediaTwilioUrl : Option String := none
  mediaSha256Hash : Option String := none
  mediaContentType : Option String := none
  createdAt : Nat
  deriving DecidableEq, Repr

/-- A persisted user row (prisma schema model User). -/
structure User where
  id : Nat
  phone : String
  name : Option String := none
  isBanned : Bool := false
  deriving DecidableEq, Repr

/-- The message table contents. -/
abbrev Store := List Message

/-! ### JS string primitives used by the sources -/

/-- Model of JS String.prototype.toLowerCase, ASCII case mapping.  Written
over the character list so that it evaluates by kernel reduction. -/
def jsToLower (s : String) : String := ⟨s.data.map Char.toLower⟩

/-- Model of JS String.prototype.trim (ASCII whitespace at both ends). -/
def jsTrim (s : String) : String :=
  ⟨(((s.data.dropWhile Char.isWhitespace).reverse.dropWhile Char.isWhitespace).reverse)⟩

/-- JS truthiness of a possibly absent string: undefined, null and the empty
string are falsy. -/
def jsTruthyStr : Option String → Bool
  | none => false
  | some s => s ≠ ""

/-- JS x || d for a possibly absent string x. -/
def jsOrStr (x : Option String) (d : String) : String :=
  if jsTruthyStr x then x.getD "" else d

/-- JS x || null for a possibly absent string: an empty string collapses to
null. -/
def jsOrNull (x : Option String) : Option String :=
  if jsTruthyStr x then x else none

/-- Model of JS String.prototype.startsWith. -/
def jsStartsWith (s pre : String) : Bool := pre.data.isPrefixOf s.data

/-- Scan for an occurrence of pat anywhere in the list. -/
def infixScan (pat : List Char) : List Char → Bool
  | [] => pat.isEmpty
  | c :: rest => pat.isPrefixOf (c :: rest) || infixScan pat rest

/-- Model of JS String.prototype.includes. -/
def jsIncludes (s pat : String) : Bool := infixScan pat.data s.data

/-- Replace the first occurrence of pat in a character list. -/
def replaceFirstAux (pat repl : List Char) : List Char → List Char
  | [] => []
  | c :: rest =>
    if pat.isPrefixOf (c :: rest) then repl ++ (c :: rest).drop pat.length
    else c :: replaceFirstAux pat repl rest

/-- Model of JS String.prototype.replace with a string pattern: only the
first occurrence is replaced. -/
def jsReplaceFirst (s pat repl : String) : String :=
  ⟨replaceFirstAux pat.data repl.data s.data⟩

/-- Model of JS parseInt(s, 10): skip leading whitespace, optional sign,
longest digit prefix; none models NaN. -/
def jsParseInt (s : String) : Option Int :=
  let t := s.data.dropWhile Char.isWhitespace
  let signed : Int × List Char :=
    match t with
    | c :: rest => if c = '-' then (-1, rest) else if c = '+' then (1, rest) else (1, t)
    | [] => (1, t)
  let digits := signed.2.takeWhile Char.isDigit
  if digits.isEmpty then none
  else some (signed.1 * (digits.foldl (fun n c => n * 10 + (c.toNat - 48)) 0 : Nat))

/-! ### Context Store queries (db.ts) -/

/-- The where-clause of the reset-marker lookup in getConversationHistory:
kind command with content "clear" for the given user. -/
def isClearCommand (userId : Nat) (m : Message) : Bool :=
  decide (m.userId = userId ∧ m.type = MessageType.command ∧ m.content = "clear")

/-- One step of scanning for the row with maximal createdAt. -/
def pickNewer (acc : Option Message) (m : Message) : Option Message :=
  match acc with
  | none => some m
  | some b => if b.createdAt < m.createdAt then some m else some b

/-- Prisma findFirst with orderBy createdAt desc: a matching row of maximal
createdAt, none when nothing matches. -/
def findFirstByCreatedAtDesc (p : Message → Bool) (store : Store) : Option Message :=
  (store.filter p).foldl pickNewer none

/-- The createdAt cut imposed by the optional reset marker. -/
def afterMarker (marker : Option Message) (m : Message) : Bool :=
  match marker with
  | some c => decide (c.createdAt < m.createdAt)
  | none => true

/-- Comparison used to model orderBy createdAt asc. -/
def msgLe (a b : Message) : Prop := a.createdAt ≤ b.createdAt

instance : DecidableRel msgLe := fun a b => Nat.decLe a.createdAt b.createdAt

instance : IsTotal Message msgLe := ⟨fun a b => Nat.le_total a.createdAt b.createdAt⟩

instance : IsTrans Message msgLe := ⟨fun _ _ _ h h2 => Nat.le_trans h h2⟩

/-- db.ts getConversationHistory over a store snapshot: find the most recent
clear command for the user (findFirst, orderBy createdAt desc), then all of
that user's messages strictly after it (or all of them when the marker is
absent), ordered by creation time ascending. -/
def getConversationHistory (store : Store) (userId : Nat) : List Message :=
  List.insertionSort msgLe
    (store.filter fun m => decide (m.userId = userId) &&
      afterMarker (findFirstByCreatedAtDesc (isClearCommand userId) store) m)

/-- db.ts getConversationHistory including its catch block: a store failure
is rethrown as a new database error. -/
def getConversationHistoryRun (db : Except Unit Store) (userId : Nat) :
    Except Unit (List Message) :=
  match db with
  | .error e => .error e
  | .ok store => .ok (getConversationHistory store userId)

/-- db.ts hasNewerMessages over a store snapshot: look up the inbound row by
id (false when absent), then count the user's role-user rows strictly newer
than it. -/
def hasNewerMessagesPure (store : Store) (userId : Nat) (messageId : Nat) : Bool :=
  match store.find? (fun m => decide (m.id = messageId)) with
  | none => false
  | some message =>
    decide (0 < store.countP fun m =>
      decide (m.userId = userId ∧ m.role = MessageRole.user ∧ message.createdAt < m.createdAt))

/-- db.ts hasNewerMessages including its catch block: any error yields
false. -/
def hasNewerMessages (db : Except Unit Store) (userId messageId : Nat) : Bool :=
  match db with
  | .error _ => false
  | .ok store => hasNewerMessagesPure store userId messageId

/-- The window membership predicate as the specification words it: the
message belongs to the user and strictly postdates every reset marker of
that user (vacuously all messages when no marker exists). -/
def inClaimWindow (store : Store) (userId : Nat) (m : Message) : Bool :=
  decide (m.userId = userId) &&
    store.all fun c => !(isClearCommand userId c) || decide (c.createdAt < m.createdAt)

/-! ### Classifier (twilio.ts determineMessageType) -/

/-- The fields determineMessageType reads from its argument. -/
structure ClassifierInput where
  hasMedia : Bool
  body : Option String := none
  mediaType : Option String := none
  deriving DecidableEq, Repr

/-- twilio.ts determineMessageType: derive the kind from attachment
presence, body text and attachment content-type.  The body comparison
lowercases but does not trim. -/
def determineMessageType (webhookData : ClassifierInput) : MessageType :=
  if !webhookData.hasMedia then
    match webhookData.body with
    | some b => if jsToLower b = "clear" then MessageType.command else MessageType.text
    | none => MessageType.text
  else
    let mediaType := jsOrStr (webhookData.mediaType.map jsToLower) ""
    if jsStartsWith mediaType "image/" then MessageType.image
    else if jsStartsWith mediaType "audio/" || jsIncludes mediaType "ogg" ||
        jsIncludes mediaType "voice" then
      MessageType.audio
    else MessageType.text

/-- The classification rules exactly as the claim states them, rule (a)
comparing the trimmed, case-folded body against the reset keyword. -/
def determineMessageTypeClaim (r : ClassifierInput) : MessageType :=
  if !r.hasMedia then
    if jsToLower (jsTrim (r.body.getD "")) = "clear" then MessageType.command
    else MessageType.text
  else
    let ct := jsOrStr (r.mediaType.map jsToLower) ""
    if jsStartsWith ct "image/" then MessageType.image
    else if jsStartsWith ct "audio/" || jsIncludes ct "ogg" || jsIncludes ct "voice" then
      MessageType.audio
    else MessageType.text

/-- The claim amended to match the code: the body is case-folded but not
trimmed before the comparison with the reset keyword. -/
def determineMessageTypeAmended (r : ClassifierInput) : MessageType :=
  if !r.hasMedia then
    if jsToLower (r.body.getD "") = "clear" then MessageType.command
    else MessageType.text
  else
    let ct := jsOrStr (r.mediaType.map jsToLower) ""
    if jsStartsWith ct "image/" then MessageType.image
    else if jsStartsWith ct "audio/" || jsIncludes ct "ogg" || jsIncludes ct "voice" then
      MessageType.audio
    else MessageType.text

/-! ### Safety gate (openai.ts moderateContent) -/

/-- The raw response of the moderation capability: aggregate verdict plus
per-category booleans in capability order. -/
structure RawModerationResult where
  flagged : Bool
  categories : List (String × Bool)
  deriving DecidableEq, Repr

/-- The verdict moderateContent returns. -/
structure ModerationVerdict where
  flagged : Bool
  categories : Option (List String) := none
  hasError : Bool := false
  deriving DecidableEq, Repr

/-- openai.ts moderateContent: call the moderation capability on the text;
on success report the aggregate verdict and, when flagged, the labels whose
per-category boolean is true in capability order; on any thrown error
return an unflagged verdict carrying the error (fail-open). -/
def moderateContent (api : String → Except String RawModerationResult) (content : String) :
    ModerationVerdict :=
  match api content with
  | .error _ => { flagged := false, hasError := true }
  | .ok results =>
    if results.flagged then
      { flagged := true,
        categories := some ((results.categories.filter fun kv => kv.2).map fun kv => kv.1) }
    else { flagged := false }

/-! ### Generation request assembly (openai.ts formatMessagesForOpenAI) -/

/-- The application-side message shape handed to the generation client. -/
structure AppMessage where
  role : MessageRole
  type : MessageType
  content : String
  mediaUrl : Option String := none
  isForwarded : Bool := false
  deriving DecidableEq, Repr

/-- Content of one request turn: plain text, or a remote image reference
together with text. -/
inductive TurnContent where
  | plain (body : String)
  | imageWithText (url : String) (body : String)
  deriving DecidableEq, Repr

/-- One turn of the generation request. -/
structure ChatTurn where
  role : String
  content : TurnContent
  deriving DecidableEq, Repr

/-- openai.ts formatMessagesForOpenAI: start from the system turn and push
one turn per entry, skipping role-system and kind-command entries; an image
entry with a truthy media reference becomes a composite turn; a forwarded
entry has the FORWARDED MESSAGE marker prepended to its text. -/
def formatMessagesForOpenAI (messages : List AppMessage) (systemPrompt : String) :
    List ChatTurn :=
  messages.foldl
    (fun formattedMessages message =>
      if message.role = MessageRole.system ∨ message.type = MessageType.command then
        formattedMessages
      else
        formattedMessages ++
          [if message.type = MessageType.image ∧ jsTruthyStr message.mediaUrl = true then
            { role := if message.role = MessageRole.user then "user" else "assistant",
              content := TurnContent.imageWithText (message.mediaUrl.getD "")
                ((if message.isForwarded then "FORWARDED MESSAGE:\n" else "") ++
                  message.content) }
          else
            { role := if message.role = MessageRole.user then "user" else "assistant",
              content := TurnContent.plain
                ((if message.isForwarded then "FORWARDED MESSAGE:\n" else "") ++
                  message.content) }])
    [{ role := "system", content := TurnContent.plain systemPrompt }]

/-- An entry the claim includes in the request (neither role system nor
kind command). -/
def includedEntry (m : AppMessage) : Bool :=
  !(decide (m.role = MessageRole.system) || decide (m.type = MessageType.command))

/-- The text the claim assigns to an entry: the forwarded marker, when the
flag is set, prepended to the entry text. -/
def claimTurnText (m : AppMessage) : String :=
  (if m.isForwarded then "FORWARDED MESSAGE:\n" else "") ++ m.content

/-- The turn the claim assigns to an included entry. -/
def claimTurn (m : AppMessage) : ChatTurn :=
  { role := if m.role = MessageRole.user then "user" else "assistant",
    content :=
      if m.type = MessageType.image ∧ jsTruthyStr m.mediaUrl = true then
        TurnContent.imageWithText (m.mediaUrl.getD "") (claimTurnText m)
      else TurnContent.plain (claimTurnText m) }

/-- The text carried by a turn. -/
def turnText : TurnContent → String
  | .plain b => b
  | .imageWithText _ b => b

/-! ### Outbound send (twilio.ts sendWhatsAppMessage) -/

/-- The value sendWhatsAppMessage resolves with. -/
structure SendResult where
  success : Bool
  messageSid : Option String := none
  hasError : Bool := false
  deriving DecidableEq, Repr

/-- twilio.ts sendWhatsAppMessage: the provider call outcome is caught;
success and failure are both returned as a value, never rethrown. -/
def sendWhatsAppMessage (provider : Except Unit String) (to_ body : String) : SendResult :=
  match provider with
  | .ok sid => { success := true, messageSid := some sid }
  | .error _ => { success := false, hasError := true }

/-! ### Webhook intake (twilio.ts extractMessageData) -/

/-- The recognized fields of the inbound webhook body. -/
structure WebhookBody where
  From : Option String := none
  Body : Option String := none
  NumMedia : Option String := none
  MediaContentType0 : Option String := none
  MediaUrl0 : Option String := none
  SmsMessageSid : Option String := none
  ProfileName : Option String := none
  Forwarded : Option Bool := none
  deriving DecidableEq, Repr

/-- The normalized intake record extractMessageData returns. -/
structure MessageData where
  from_ : String
  body : String
  messageSid : Option String := none
  hasMedia : Bool := false
  mediaContentType : Option String := none
  mediaTwilioUrl : Option String := none
  numMedia : Option Int := none
  profileName : Option String := none
  isFordwarded : Option Bool := none
  deriving DecidableEq, Repr

/-- twilio.ts extractMessageData (the variant with profileName and the
forwarded flag, used by the current pipeline): destructure the webhook
fields and strip the whatsapp prefix from the sender address.  When From is
absent the replace call dereferences undefined and throws, modelled as an
error. -/
def extractMessageData (w : WebhookBody) : Except Unit MessageData :=
  match w.From with
  | none => .error ()
  | some f =>
    let numMedia := jsParseInt (jsOrStr w.NumMedia "0")
    .ok {
      from_ := jsReplaceFirst f "whatsapp:" "",
      body := jsOrStr w.Body "",
      messageSid := w.SmsMessageSid,
      hasMedia := match numMedia with | some n => decide (0 < n) | none => false,
      mediaContentType := jsOrNull w.MediaContentType0,
      mediaTwilioUrl := jsOrNull w.MediaUrl0,
      numMedia := numMedia,
      profileName := w.ProfileName,
      isFordwarded := w.Forwarded }

/-! ### Generation call (openai.ts getChatCompletion) -/

/-- openai.ts getChatCompletion: fetch and compile the system prompt (this
sits outside the try block, so a failure propagates as is), format the
request, call the generative capability once; a capability failure is
caught and rethrown as a generation error; the content of the top choice
defaults to the empty string. -/
def getChatCompletion (promptFetch : String → Except Unit String)
    (complete : List ChatTurn → Except Unit (Option String))
    (messages : List AppMessage) (userName : String) : Except Unit String :=
  match promptFetch userName with
  | .error e => .error e
  | .ok systemPrompt =>
    match complete (formatMessagesForOpenAI messages systemPrompt) with
    | .error _ => .error ()
    | .ok content => .ok (jsOrStr content "")

/-! ### The pipeline run (message-processor.ts processMessage) -/

/-- Arguments of one db.ts createMessage call. -/
structure CreateArgs where
  userId : Nat
  role : MessageRole
  type : MessageType
  content : String
  mediaTwilioUrl : Option String := none
  mediaSha256Hash : Option String := none
  mediaContentType : Option String := none
  moderationReason : Option String := none
  isForwarded : Option Bool := none
  deriving DecidableEq, Repr

/-- Observable side effects of a run, in execution order. -/
inductive Effect where
  | persisted (args : CreateArgs)
  | sent (to_ : String) (body : String) (result : SendResult)
  deriving DecidableEq, Repr

/-- The value processMessage resolves with. -/
structure ProcResult where
  success : Bool
  error : Option String := none
  deriving DecidableEq, Repr

/-- How a run ends: resolving with a result, or throwing. -/
inductive RunResult where
  | thrown
  | returned (r : ProcResult)
  deriving DecidableEq, Repr

/-- A finished run: its end and its side effects. -/
structure RunOutput where
  result : RunResult
  effects : List Effect
  deriving DecidableEq, Repr

/-- Outcomes of the external interactions of one pipeline run.  Each store
read carries the snapshot visible to that query (concurrent runs may commit
rows between the queries of one run), or a thrown store error. -/
structure Env where
  userOutcome : Except Unit User
  mediaDownload : Except Unit Nat := .ok 0
  contentSha256Hash : Option String := none
  transcription : Except Unit String := .ok ""
  moderationApi : String → Except String RawModerationResult
  historyDb : Except Unit Store := .ok []
  promptFetch : String → Except Unit String := fun _ => .ok ""
  complete : List ChatTurn → Except Unit (Option String)
  guardDb : Except Unit Store := .ok []
  createFails : Bool := false
  newMessageId : Nat := 0
  newMessageCreatedAt : Nat := 0
  sendProvider : Except Unit String := .ok "SM0"

/-- db.ts createMessage: the insert either throws (store failure) or
returns the created row, echoing the arguments with the store-assigned id
and timestamp. -/
def createMessage (fails : Bool) (args : CreateArgs) (id createdAt : Nat) :
    Except Unit Message :=
  if fails then .error ()
  else .ok { id := id, userId := args.userId, role := args.role, type := args.type,
             content := args.content, isForwarded := args.isForwarded.getD false,
             moderationReason := args.moderationReason,
             mediaTwilioUrl := args.mediaTwilioUrl,
             mediaSha256Hash := args.mediaSha256Hash,
             mediaContentType := args.mediaContentType, createdAt := createdAt }

/-- Acknowledgment sent after a clear command. -/
def clearAck : String := "Conversation history cleared. What would you like to talk about?"

/-- Rejection notice sent for flagged content. -/
def moderationRejectionNotice : String :=
  "I\x27m unable to respond to that message as it may contain inappropriate content. Please try a different question or message."

/-- Best-effort generic failure notice sent from the catch block. -/
def errorNotice : String :=
  "I\x27m sorry, I encountered an error processing your message. Please try again later."

/-- Error text of the result the catch block resolves with (the rendering
of the thrown error is appended at runtime and abstracted away here). -/
def errorResultText : String := "Error processing message"

/-- The mapping applied to each history row before formatting. -/
def toAppMessage (msg : Message) : AppMessage :=
  { role := msg.role, type := msg.type, content := msg.content,
    mediaUrl := msg.mediaTwilioUrl, isForwarded := msg.isForwarded }

/-- The catch block of processMessage: log, then best-effort generic error
notice to the sender (the inner try around that send only matters for a
send throw, which the send model rules out), then resolve unsuccessfully. -/
def catchPath (env : Env) (from_ : String) (effectsSoFar : List Effect) : RunOutput :=
  { result := RunResult.returned { success := false, error := some errorResultText },
    effects := effectsSoFar ++
      [Effect.sent from_ errorNotice (sendWhatsAppMessage env.sendProvider from_ errorNotice)] }

/-- Steps 10 to 12: the staleness guard and, when it passes, persisting the
assistant reply and then sending it. -/
def dispatchPhase (env : Env) (from_ : String) (user : User) (eff0 : List Effect)
    (userMessageId : Nat) (aiResponse : String) : RunOutput :=
  if hasNewerMessages env.guardDb user.id userMessageId then
    { result := RunResult.returned
        { success := false, error := some "Newer messages found. Skipping response." },
      effects := eff0 }
  else
    match createMessage env.createFails
        { userId := user.id, role := MessageRole.assistant, type := MessageType.text,
          content := aiResponse } 0 0 with
    | .error _ => catchPath env from_ eff0
    | .ok _ =>
      { result := RunResult.returned { success := true },
        effects := eff0 ++
          [Effect.persisted { userId := user.id, role := MessageRole.assistant,
                              type := MessageType.text, content := aiResponse },
           Effect.sent user.phone aiResponse
             (sendWhatsAppMessage env.sendProvider user.phone aiResponse)] }

/-- Step 9: the generation call. -/
def generationPhase (env : Env) (from_ : String) (user : User) (eff0 : List Effect)
    (userMessageId : Nat) (conversationHistory : List Message) : RunOutput :=
  match getChatCompletion env.promptFetch env.complete
      (conversationHistory.map toAppMessage) (user.name.getD "") with
  | .error _ => catchPath env from_ eff0
  | .ok aiResponse => dispatchPhase env from_ user eff0 userMessageId aiResponse

/-- Steps 7 and 8: the history query. -/
def historyPhase (env : Env) (from_ : String) (user : User) (eff0 : List Effect)
    (userMessageId : Nat) : RunOutput :=
  match getConversationHistoryRun env.historyDb user.id with
  | .error _ => catchPath env from_ eff0
  | .ok conversationHistory =>
    generationPhase env from_ user eff0 userMessageId conversationHistory

/-- Step 6: persist the inbound message. -/
def persistInboundPhase (env : Env) (messageData : MessageData) (user : User)
    (messageType : MessageType) (content : String) (mediaSha256Hash : Option String) :
    RunOutput :=
  let userArgs : CreateArgs :=
    { userId := user.id, role := MessageRole.user, type := messageType, content := content,
      mediaTwilioUrl := messageData.mediaTwilioUrl, mediaSha256Hash := mediaSha256Hash,
      isForwarded := messageData.isFordwarded }
  match createMessage env.createFails userArgs env.newMessageId env.newMessageCreatedAt with
  | .error _ => catchPath env messageData.from_ []
  | .ok userMessage =>
    historyPhase env messageData.from_ user [Effect.persisted userArgs] userMessage.id

/-- Step 5: inbound moderation and the rejection branch. -/
def moderationPhase (env : Env) (messageData : MessageData) (user : User)
    (messageType : MessageType) (content : String) (mediaSha256Hash : Option String) :
    RunOutput :=
  let moderation := moderateContent env.moderationApi content
  if moderation.flagged then
    let args : CreateArgs :=
      { userId := user.id, role := MessageRole.user, type := messageType, content := content,
        mediaTwilioUrl := messageData.mediaTwilioUrl, mediaSha256Hash := mediaSha256Hash,
        mediaContentType := messageData.mediaContentType,
        moderationReason := moderation.categories.map (String.intercalate ", "),
        isForwarded := messageData.isFordwarded }
    match createMessage env.createFails args env.newMessageId env.newMessageCreatedAt with
    | .error _ => catchPath env messageData.from_ []
    | .ok _ =>
      { result := RunResult.returned
          { success := false, error := some "Content moderation failed" },
        effects := [Effect.persisted args,
          Effect.sent user.phone moderationRejectionNotice
            (sendWhatsAppMessage env.sendProvider user.phone moderationRejectionNotice)] }
  else persistInboundPhase env messageData user messageType content mediaSha256Hash

/-- Step 4: media download, fingerprint and audio transcription. -/
def mediaPhase (env : Env) (messageData : MessageData) (user : User)
    (messageType : MessageType) : RunOutput :=
  if messageData.hasMedia && jsTruthyStr messageData.mediaTwilioUrl then
    match env.mediaDownload with
    | .error _ => catchPath env messageData.from_ []
    | .ok _ =>
      if messageType = MessageType.audio then
        match env.transcription with
        | .error _ => catchPath env messageData.from_ []
        | .ok transcript =>
          moderationPhase env messageData user messageType transcript env.contentSha256Hash
      else
        moderationPhase env messageData user messageType messageData.body
          env.contentSha256Hash
  else moderationPhase env messageData user messageType messageData.body none

/-- Steps 2 and 3: the ban check and the clear-command short circuit.  The
intake record of this pipeline variant has no mediaType field, so the
classifier reads undefined for it. -/
def userPhase (env : Env) (messageData : MessageData) (user : User) : RunOutput :=
  let messageType := determineMessageType
    { hasMedia := messageData.hasMedia, body := some messageData.body, mediaType := none }
  if user.isBanned then
    { result := RunResult.returned { success := false, error := some "User is banned" },
      effects := [] }
  else if messageType = MessageType.command ∧ jsToLower messageData.body = "clear" then
    match createMessage env.createFails
        { userId := user.id, role := MessageRole.user, type := MessageType.command,
          content := "clear" } env.newMessageId env.newMessageCreatedAt with
    | .error _ => catchPath env messageData.from_ []
    | .ok _ =>
      { result := RunResult.returned { success := true },
        effects := [Effect.persisted { userId := user.id, role := MessageRole.user,
                                       type := MessageType.command, content := "clear" },
          Effect.sent user.phone clearAck
            (sendWhatsAppMessage env.sendProvider user.phone clearAck)] }
  else mediaPhase env messageData user messageType

/-- message-processor.ts processMessage: field extraction runs before the
try block, so its throw escapes the function; once inside, a user lookup
failure and every later throw land in the catch block. -/
def processMessage (env : Env) (webhookData : WebhookBody) : RunOutput :=
  match extractMessageData webhookData with
  | .error _ => { result := RunResult.thrown, effects := [] }
  | .ok messageData =>
    match env.userOutcome with
    | .error _ => catchPath env messageData.from_ []
    | .ok user => userPhase env messageData user

/-! ### Concrete fixtures used by the witnesses and counterexamples -/

/-- A plain text webhook body. -/
def wDemo : WebhookBody := { From := some "whatsapp:+1", Body := some "hello" }

/-- The intake record extracted from wDemo. -/
def mdDemo : MessageData := { from_ := "+1", body := "hello", numMedia := some 0 }

/-- A non-banned user. -/
def userDemo : User := { id := 1, phone := "+1" }

/-- A moderation capability that reports clean content. -/
def okModeration : String → Except String RawModerationResult :=
  fun _ => .ok { flagged := false, categories := [] }

/-- A generation capability that answers with a fixed reply. -/
def okComplete : List ChatTurn → Except Unit (Option String) :=
  fun _ => .ok (some "reply")

/-- A guard snapshot holding the inbound row (id 10, t=1) and a strictly
newer role-user row (t=2) of the same user. -/
def gDemo : Store :=
  [{ id := 10, userId := 1, role := MessageRole.user, type := MessageType.text,
     content := "hello", createdAt := 1 },
   { id := 11, userId := 1, role := MessageRole.user, type := MessageType.text,
     content := "again", createdAt := 2 }]

/-- The inbound row of gDemo. -/
def inboundDemo : Message :=
  { id := 10, userId := 1, role := MessageRole.user, type := MessageType.text,
    content := "hello", createdAt := 1 }

/-- Environment of a run whose guard snapshot already holds a newer user
message. -/
def envStale : Env :=
  { userOutcome := .ok userDemo, moderationApi := okModeration,
    complete := okComplete, guardDb := .ok gDemo, newMessageId := 10 }

/-- Environment of a run whose outbound provider fails. -/
def envSendFail : Env :=
  { userOutcome := .ok userDemo, moderationApi := okModeration,
    complete := okComplete, sendProvider := .error () }

/-- Environment of a run whose staleness query fails. -/
def envGuardErr : Env :=
  { userOutcome := .ok userDemo, moderationApi := okModeration,
    complete := okComplete, guardDb := .error () }

/-- Environment of a run whose history query fails. -/
def envHistErr : Env :=
  { userOutcome := .ok userDemo, moderationApi := okModeration,
    complete := okComplete, historyDb := .error () }

/-- The same environment with the history query succeeding on an empty
store. -/
def envHistEmpty : Env :=
  { userOutcome := .ok userDemo, moderationApi := okModeration, complete := okComplete }


/-! ### Theorems -/

/-! ### Properties of the reset-marker scan -/

theorem foldl_pickNewer_some (l : List Message) (b0 : Message) :
    ∃ b, l.foldl pickNewer (some b0) = some b ∧ (b = b0 ∨ b ∈ l) ∧
      b0.createdAt ≤ b.createdAt ∧ ∀ c ∈ l, c.createdAt ≤ b.createdAt := by
  induction l generalizing b0 with
  | nil => exact ⟨b0, rfl, Or.inl rfl, Nat.le_refl _, by simp⟩
  | cons m t ih =>
    simp only [List.foldl_cons, pickNewer]
    by_cases h : b0.createdAt < m.createdAt
    · obtain ⟨b, hb, hmem, hle, hall⟩ := ih m
      refine ⟨b, by simpa [h] using hb, ?_, Nat.le_trans (Nat.le_of_lt h) hle, ?_⟩
      · rcases hmem with h1 | h1
        · exact Or.inr (h1 ▸ List.mem_cons_self m t)
        · exact Or.inr (List.mem_cons_of_mem m h1)
      · intro c hc
        rcases List.mem_cons.mp hc with h1 | h1
        · exact h1 ▸ hle
        · exact hall c h1
    · obtain ⟨b, hb, hmem, hle, hall⟩ := ih b0
      refine ⟨b, by simpa [h] using hb, ?_, hle, ?_⟩
      · rcases hmem with h1 | h1
        · exact Or.inl h1
        · exact Or.inr (List.mem_cons_of_mem m h1)
      · intro c hc
        rcases List.mem_cons.mp hc with h1 | h1
        · exact h1 ▸ Nat.le_trans (Nat.le_of_not_lt h) hle
        · exact hall c h1

theorem findFirst_none_iff (p : Message → Bool) (store : Store) :
    findFirstByCreatedAtDesc p store = none ↔ store.filter p = [] := by
  unfold findFirstByCreatedAtDesc
  cases hf : store.filter p with
  | nil => simp
  | cons m t =>
    simp only [List.foldl_cons]
    have : pickNewer none m = some m := rfl
    rw [this]
    obtain ⟨b, hb, -, -, -⟩ := foldl_pickNewer_some t m
    rw [hb]
    simp

theorem findFirst_spec (p : Message → Bool) (store : Store) (b : Message)
    (h : findFirstByCreatedAtDesc p store = some b) :
    b ∈ store.filter p ∧ ∀ c ∈ store.filter p, c.createdAt ≤ b.createdAt := by
  unfold findFirstByCreatedAtDesc at h
  cases hf : store.filter p with
  | nil => rw [hf] at h; simp at h
  | cons m t =>
    rw [hf] at h
    simp only [List.foldl_cons] at h
    have hstep : pickNewer none m = some m := rfl
    rw [hstep] at h
    obtain ⟨b2, hb2, hmem, hle, hall⟩ := foldl_pickNewer_some t m
    rw [hb2] at h
    cases h
    constructor
    · rcases hmem with h1 | h1
      · exact h1 ▸ List.mem_cons_self m t
      · exact List.mem_cons_of_mem m h1
    · intro c hc
      rcases List.mem_cons.mp hc with h1 | h1
      · exact h1 ▸ hle
      · exact hall c h1

/-- The filter used by the code coincides pointwise with the window
predicate as the claim words it. -/
theorem codePred_eq_claimPred (store : Store) (u : Nat) (m : Message) :
    (decide (m.userId = u) && afterMarker (findFirstByCreatedAtDesc (isClearCommand u) store) m)
      = inClaimWindow store u m := by
  unfold inClaimWindow
  cases hf : findFirstByCreatedAtDesc (isClearCommand u) store with
  | none =>
    have hnil := (findFirst_none_iff (isClearCommand u) store).mp hf
    have hall : store.all
        (fun c => !(isClearCommand u c) || decide (c.createdAt < m.createdAt)) = true := by
      rw [List.all_eq_true]
      intro c hc
      have : isClearCommand u c = false := by
        by_contra hcc
        have : c ∈ store.filter (isClearCommand u) :=
          List.mem_filter.mpr ⟨hc, Bool.of_not_eq_false hcc⟩
        rw [hnil] at this
        simp at this
      simp [this]
    rw [hall]
    simp [afterMarker]
  | some b =>
    obtain ⟨hbmem, hbmax⟩ := findFirst_spec _ _ _ hf
    have hbclear : isClearCommand u b = true := (List.mem_filter.mp hbmem).2
    simp only [afterMarker]
    by_cases hm : b.createdAt < m.createdAt
    · have hall : store.all
          (fun c => !(isClearCommand u c) || decide (c.createdAt < m.createdAt)) = true := by
        rw [List.all_eq_true]
        intro c hc
        by_cases hcc : isClearCommand u c = true
        · have : c.createdAt ≤ b.createdAt :=
            hbmax c (List.mem_filter.mpr ⟨hc, hcc⟩)
          simp [Nat.lt_of_le_of_lt this hm]
        · simp [Bool.eq_false_iff.mpr hcc]
      rw [hall]
      simp [hm]
    · have hnall : store.all
          (fun c => !(isClearCommand u c) || decide (c.createdAt < m.createdAt)) = false := by
        rw [Bool.eq_false_iff]
        intro hall
        rw [List.all_eq_true] at hall
        have := hall b (List.mem_filter.mp hbmem).1
        rw [hbclear] at this
        simp at this
        exact hm this
      rw [hnall]
      simp [hm]

/-- Unfolding of the claim-side window predicate. -/
theorem inClaimWindow_iff (store : Store) (u : Nat) (m : Message) :
    inClaimWindow store u m = true ↔
      (m.userId = u ∧ ∀ c ∈ store, isClearCommand u c = true → c.createdAt < m.createdAt) := by
  simp only [inClaimWindow, Bool.and_eq_true, decide_eq_true_eq, List.all_eq_true,
    Bool.or_eq_true, Bool.not_eq_true']
  constructor
  · rintro ⟨h1, h2⟩
    refine ⟨h1, fun c hc hcc => ?_⟩
    rcases h2 c hc with h | h
    · rw [hcc] at h; exact absurd h (by simp)
    · exact h
  · rintro ⟨h1, h2⟩
    refine ⟨h1, fun c hc => ?_⟩
    by_cases hcc : isClearCommand u c = true
    · exact Or.inr (h2 c hc hcc)
    · exact Or.inl (Bool.eq_false_iff.mpr hcc)

/-- Membership in the conversation window. -/
theorem mem_window_iff (store : Store) (u : Nat) (x : Message) :
    x ∈ getConversationHistory store u ↔ x ∈ store ∧ inClaimWindow store u x = true := by
  unfold getConversationHistory
  rw [List.mem_insertionSort, List.mem_filter, codePred_eq_claimPred]

/-- The code filter equals the claim-side filter. -/
theorem window_filter_eq (store : Store) (u : Nat) :
    (store.filter fun m => decide (m.userId = u) &&
        afterMarker (findFirstByCreatedAtDesc (isClearCommand u) store) m)
      = store.filter (inClaimWindow store u) :=
  List.filter_congr fun m _ => codePred_eq_claimPred store u m

/-- C1: the conversation-window query returns exactly the messages of the
user strictly after the most recent clear marker of that user (all of them
when no marker exists), ordered by creation time ascending. -/
theorem claim_C1_window_query (store : Store) (u : Nat) :
    (getConversationHistory store u).Perm (store.filter (inClaimWindow store u)) ∧
      (getConversationHistory store u).Sorted msgLe := by
  constructor
  · unfold getConversationHistory
    rw [window_filter_eq]
    exact List.perm_insertionSort msgLe _
  · exact List.sorted_insertionSort msgLe _

/-- C6: appending a non-reset message never removes a window entry, and
appending a clear command of the user (with a fresh, strictly larger
timestamp) empties the window until a further message is appended. -/
theorem claim_C6_window_monotone_truncate (store : Store) (u : Nat) (m : Message) :
    (¬(m.type = MessageType.command ∧ m.content = "clear") →
        ∀ x ∈ getConversationHistory store u, x ∈ getConversationHistory (store ++ [m]) u) ∧
    (m.userId = u → m.type = MessageType.command → m.content = "clear" →
      (∀ x ∈ store, x.createdAt < m.createdAt) →
        getConversationHistory (store ++ [m]) u = [] ∧
        ∀ m2, m2.userId = u → ¬(m2.type = MessageType.command ∧ m2.content = "clear") →
          m.createdAt < m2.createdAt →
            getConversationHistory ((store ++ [m]) ++ [m2]) u = [m2]) := by
  constructor
  · intro hm x hx
    obtain ⟨hxs, hxw⟩ := (mem_window_iff store u x).mp hx
    rw [inClaimWindow_iff] at hxw
    refine (mem_window_iff (store ++ [m]) u x).mpr
      ⟨List.mem_append_left _ hxs, (inClaimWindow_iff _ u x).mpr ⟨hxw.1, ?_⟩⟩
    intro c hc hcc
    rcases List.mem_append.mp hc with h1 | h1
    · exact hxw.2 c h1 hcc
    · rcases List.mem_singleton.mp h1 with rfl
      exact absurd ⟨(of_decide_eq_true hcc).2.1, (of_decide_eq_true hcc).2.2⟩ hm
  · intro huid htype hcontent hfresh
    have hclear : isClearCommand u m = true := decide_eq_true ⟨huid, htype, hcontent⟩
    constructor
    · rw [List.eq_nil_iff_forall_not_mem]
      intro x hx
      obtain ⟨hxs, hxw⟩ := (mem_window_iff _ u x).mp hx
      have := ((inClaimWindow_iff _ u x).mp hxw).2 m (List.mem_append_right _ (List.mem_singleton_self m)) hclear
      rcases List.mem_append.mp hxs with h1 | h1
      · exact absurd this (Nat.not_lt_of_lt (hfresh x h1))
      · rcases List.mem_singleton.mp h1 with rfl
        exact absurd this (Nat.lt_irrefl _)
    · intro m2 h2uid h2not h2lt
      unfold getConversationHistory
      rw [window_filter_eq]
      have hfil : ((store ++ [m]) ++ [m2]).filter (inClaimWindow ((store ++ [m]) ++ [m2]) u) = [m2] := by
        rw [List.filter_append, List.filter_append]
        have hs : store.filter (inClaimWindow ((store ++ [m]) ++ [m2]) u) = [] := by
          rw [List.filter_eq_nil_iff]
          intro x hx hxw
          have := ((inClaimWindow_iff _ u x).mp hxw).2 m
            (List.mem_append_left _ (List.mem_append_right _ (List.mem_singleton_self m))) hclear
          exact absurd this (Nat.not_lt_of_lt (hfresh x hx))
        have hm1 : List.filter (inClaimWindow ((store ++ [m]) ++ [m2]) u) [m] = [] := by
          rw [List.filter_eq_nil_iff]
          intro x hx hxw
          rcases List.mem_singleton.mp hx with rfl
          have := ((inClaimWindow_iff _ u x).mp hxw).2 x
            (List.mem_append_left _ (List.mem_append_right _ (List.mem_singleton_self x))) hclear
          exact absurd this (Nat.lt_irrefl _)
        have hm2 : List.filter (inClaimWindow ((store ++ [m]) ++ [m2]) u) [m2] = [m2] := by
          have h5 : inClaimWindow ((store ++ [m]) ++ [m2]) u m2 = true := by
            rw [inClaimWindow_iff]
            refine ⟨h2uid, fun c hc hcc => ?_⟩
            rcases List.mem_append.mp hc with h1 | h1
            · rcases List.mem_append.mp h1 with h3 | h3
              · exact Nat.lt_trans (hfresh c h3) h2lt
              · rcases List.mem_singleton.mp h3 with rfl
                exact h2lt
            · rcases List.mem_singleton.mp h1 with rfl
              exact absurd ⟨(of_decide_eq_true hcc).2.1, (of_decide_eq_true hcc).2.2⟩ h2not
          rw [List.filter_cons_of_pos h5, List.filter_nil]
        rw [hs, hm1, hm2]
        simp
      rw [hfil]
      rfl

/-- C6 witness: a concrete store where a non-reset append preserves the
window entry and a clear append empties the window. -/
theorem claim_C6_window_monotone_truncate_witness :
    ({ id := 1, userId := 1, role := MessageRole.user, type := MessageType.text,
       content := "hi", createdAt := 1 : Message}) ∈
      getConversationHistory
        ([{ id := 1, userId := 1, role := MessageRole.user, type := MessageType.text,
            content := "hi", createdAt := 1 : Message}] ++
         [{ id := 2, userId := 1, role := MessageRole.assistant, type := MessageType.text,
            content := "hello", createdAt := 2 : Message}]) 1 ∧
    getConversationHistory
        ([{ id := 1, userId := 1, role := MessageRole.user, type := MessageType.text,
            content := "hi", createdAt := 1 : Message}] ++
         [{ id := 3, userId := 1, role := MessageRole.user, type := MessageType.command,
            content := "clear", createdAt := 3 : Message}]) 1 = [] := by
  constructor
  · exact (claim_C6_window_monotone_truncate
      [{ id := 1, userId := 1, role := MessageRole.user, type := MessageType.text,
         content := "hi", createdAt := 1 : Message}] 1
      { id := 2, userId := 1, role := MessageRole.assistant, type := MessageType.text,
        content := "hello", createdAt := 2 : Message}).1 (by decide)
      { id := 1, userId := 1, role := MessageRole.user, type := MessageType.text,
        content := "hi", createdAt := 1 : Message} (by decide)
  · exact ((claim_C6_window_monotone_truncate
      [{ id := 1, userId := 1, role := MessageRole.user, type := MessageType.text,
         content := "hi", createdAt := 1 : Message}] 1
      { id := 3, userId := 1, role := MessageRole.user, type := MessageType.command,
        content := "clear", createdAt := 3 : Message}).2 rfl rfl rfl (by decide)).1

/-- C5 counterexample: a body with a trailing blank is classified text by
the code although the stated rules (which trim) classify it command. -/
theorem claim_C5_counterexample :
    determineMessageType { hasMedia := false, body := some "clear " } = MessageType.text ∧
      determineMessageTypeClaim { hasMedia := false, body := some "clear " } =
        MessageType.command := by
  exact ⟨by decide, by decide⟩

/-- C5 amended: the classifier follows the ordered rules with the body
case-folded but not trimmed; classification is a pure function of the three
fields. -/
theorem claim_C5_classifier_rules (r : ClassifierInput) :
    determineMessageType r = determineMessageTypeAmended r := by
  unfold determineMessageType determineMessageTypeAmended
  cases hm : r.hasMedia with
  | true => rfl
  | false =>
    cases hb : r.body with
    | none => simp [jsToLower]
    | some b => rfl

theorem formatMessages_go (messages : List AppMessage) (acc : List ChatTurn) :
    messages.foldl
      (fun formattedMessages message =>
        if message.role = MessageRole.system ∨ message.type = MessageType.command then
          formattedMessages
        else
          formattedMessages ++
            [if message.type = MessageType.image ∧ jsTruthyStr message.mediaUrl = true then
              { role := if message.role = MessageRole.user then "user" else "assistant",
                content := TurnContent.imageWithText (message.mediaUrl.getD "")
                  ((if message.isForwarded then "FORWARDED MESSAGE:\n" else "") ++
                    message.content) }
            else
              { role := if message.role = MessageRole.user then "user" else "assistant",
                content := TurnContent.plain
                  ((if message.isForwarded then "FORWARDED MESSAGE:\n" else "") ++
                    message.content) }]) acc
      = acc ++ (messages.filter includedEntry).map claimTurn := by
  induction messages generalizing acc with
  | nil => simp
  | cons m t ih =>
    simp only [List.foldl_cons]
    by_cases hskip : m.role = MessageRole.system ∨ m.type = MessageType.command
    · rw [if_pos hskip, ih]
      have hnot : includedEntry m = false := by
        unfold includedEntry
        rcases hskip with h | h
        · simp [h]
        · simp [h]
      rw [List.filter_cons_of_neg (by simp [hnot])]
    · rw [if_neg hskip, ih]
      have hinc : includedEntry m = true := by
        simp [includedEntry]
        push_neg at hskip
        exact hskip
      rw [List.filter_cons_of_pos hinc, List.map_cons, List.append_assoc]
      congr 1
      by_cases himg : m.type = MessageType.image ∧ jsTruthyStr m.mediaUrl = true
      · simp [claimTurn, claimTurnText, if_pos himg]
      · simp [claimTurn, claimTurnText, if_neg himg]

/-- C8: the generation request is the system turn followed by one turn per
included window entry in order; image entries with a media reference carry
the remote reference and the text; forwarded entries have the literal
FORWARDED MESSAGE marker prepended to their turn text. -/
theorem claim_C8_generation_request (messages : List AppMessage) (systemPrompt : String) :
    formatMessagesForOpenAI messages systemPrompt =
      { role := "system", content := TurnContent.plain systemPrompt } ::
        (messages.filter includedEntry).map claimTurn ∧
    ∀ m ∈ messages, includedEntry m = true → m.isForwarded = true →
      ∃ rest, turnText (claimTurn m).content = "FORWARDED MESSAGE:" ++ rest := by
  constructor
  · rw [formatMessagesForOpenAI, formatMessages_go]
    rfl
  · intro m _ _ hfwd
    refine ⟨"\n" ++ m.content, ?_⟩
    have htext : claimTurnText m = "FORWARDED MESSAGE:" ++ ("\n" ++ m.content) := by
      rw [claimTurnText, hfwd]
      rw [if_pos rfl, ← String.append_assoc]
      rfl
    by_cases himg : m.type = MessageType.image ∧ jsTruthyStr m.mediaUrl = true
    · simp [claimTurn, if_pos himg, turnText, htext]
    · simp [claimTurn, if_neg himg, turnText, htext]

/-- C8 witness at a concrete forwarded entry and window. -/
theorem claim_C8_generation_request_witness :
    ∃ rest, turnText (claimTurn { role := MessageRole.user, type := MessageType.text,
                                  content := "hi", isForwarded := true }).content =
      "FORWARDED MESSAGE:" ++ rest := by
  exact (claim_C8_generation_request
    [{ role := MessageRole.user, type := MessageType.text, content := "hi",
       isForwarded := true }] "sys").2
    { role := MessageRole.user, type := MessageType.text, content := "hi",
      isForwarded := true } (by simp) (by decide) rfl

/-! ### Staleness guard characterization -/

theorem hasNewerMessagesPure_iff (g : Store) (u mid : Nat) (inbound : Message)
    (hfind : g.find? (fun m => decide (m.id = mid)) = some inbound) :
    hasNewerMessagesPure g u mid = true ↔
      ∃ m2 ∈ g, m2.userId = u ∧ m2.role = MessageRole.user ∧
        inbound.createdAt < m2.createdAt := by
  unfold hasNewerMessagesPure
  rw [hfind]
  simp only [decide_eq_true_eq]
  rw [List.countP_pos_iff]
  simp only [decide_eq_true_eq]

/-! ### Staged evaluation of a plain text run -/

/-- A run on a plain text message (no media, not the reset keyword, clean
moderation, successful persistence) proceeds to the history query carrying
the persisted inbound message as its only effect. -/
theorem run_to_history (env : Env) (w : WebhookBody) (md : MessageData) (user : User)
    (hx : extractMessageData w = .ok md)
    (hu : env.userOutcome = .ok user)
    (hban : user.isBanned = false)
    (hmedia : md.hasMedia = false)
    (hbody : jsToLower md.body ≠ "clear")
    (hmod : (moderateContent env.moderationApi md.body).flagged = false)
    (hcf : env.createFails = false) :
    processMessage env w = historyPhase env md.from_ user
      [Effect.persisted { userId := user.id, role := MessageRole.user,
                          type := MessageType.text, content := md.body,
                          mediaTwilioUrl := md.mediaTwilioUrl,
                          isForwarded := md.isFordwarded }] env.newMessageId := by
  have htype : determineMessageType
      { hasMedia := md.hasMedia, body := some md.body, mediaType := none } =
        MessageType.text := by
    rw [hmedia]
    unfold determineMessageType
    simp [hbody]
  unfold processMessage
  rw [hx]
  simp only []
  rw [hu]
  simp only []
  unfold userPhase
  rw [htype, hban]
  simp only [Bool.false_eq_true, if_false]
  rw [if_neg (by simp)]
  unfold mediaPhase
  rw [hmedia]
  simp only [Bool.false_and, Bool.false_eq_true, if_false]
  unfold moderationPhase
  rw [if_neg (by rw [hmod]; simp)]
  unfold persistInboundPhase createMessage
  rw [hcf]
  simp only [Bool.false_eq_true, if_false]

/-- When the guard reports no newer message and the insert succeeds, the
dispatch phase persists the assistant reply and then sends it. -/
theorem dispatchPhase_not_stale (env : Env) (from_ : String) (user : User)
    (eff0 : List Effect) (mid : Nat) (resp : String)
    (hns : hasNewerMessages env.guardDb user.id mid = false)
    (hcf : env.createFails = false) :
    dispatchPhase env from_ user eff0 mid resp =
      { result := RunResult.returned { success := true },
        effects := eff0 ++
          [Effect.persisted { userId := user.id, role := MessageRole.assistant,
                              type := MessageType.text, content := resp },
           Effect.sent user.phone resp
             (sendWhatsAppMessage env.sendProvider user.phone resp)] } := by
  unfold dispatchPhase
  rw [hns]
  simp only [Bool.false_eq_true, if_false]
  unfold createMessage
  rw [hcf]
  simp only [Bool.false_eq_true, if_false]

/-- A plain text run with a successful history query and generation call
reaches the dispatch phase. -/
theorem run_to_dispatch (env : Env) (w : WebhookBody) (md : MessageData) (user : User)
    (hist : Store) (resp : String)
    (hx : extractMessageData w = .ok md)
    (hu : env.userOutcome = .ok user)
    (hban : user.isBanned = false)
    (hmedia : md.hasMedia = false)
    (hbody : jsToLower md.body ≠ "clear")
    (hmod : (moderateContent env.moderationApi md.body).flagged = false)
    (hcf : env.createFails = false)
    (hh : env.historyDb = .ok hist)
    (hgen : getChatCompletion env.promptFetch env.complete
        ((getConversationHistory hist user.id).map toAppMessage) (user.name.getD "") =
        .ok resp) :
    processMessage env w = dispatchPhase env md.from_ user
      [Effect.persisted { userId := user.id, role := MessageRole.user,
                          type := MessageType.text, content := md.body,
                          mediaTwilioUrl := md.mediaTwilioUrl,
                          isForwarded := md.isFordwarded }] env.newMessageId resp := by
  rw [run_to_history env w md user hx hu hban hmedia hbody hmod hcf]
  unfold historyPhase getConversationHistoryRun
  rw [hh]
  simp only []
  unfold generationPhase
  rw [hgen]

/-! ### Claims about the pipeline -/

/-- C9: a webhook body without a From field makes processMessage throw
before the try block begins: the run neither resolves with a result value
nor attempts an error notice. -/
theorem claim_C9_missing_sender_throws (env : Env) (w : WebhookBody)
    (h : w.From = none) :
    processMessage env w = { result := RunResult.thrown, effects := [] } := by
  unfold processMessage extractMessageData
  rw [h]

/-- C9 witness at an empty webhook body. -/
theorem claim_C9_missing_sender_throws_witness :
    processMessage envHistEmpty ({} : WebhookBody) =
      { result := RunResult.thrown, effects := [] } :=
  claim_C9_missing_sender_throws envHistEmpty ({} : WebhookBody) rfl

/-- C3: a throwing moderation capability yields an unflagged verdict, and a
run whose moderation capability throws is indistinguishable from one whose
capability returned an unflagged verdict: moderation failure never aborts a
run or blocks a reply. -/
theorem claim_C3_moderation_fail_open (api : String → Except String RawModerationResult)
    (content e : String) (h : api content = .error e) :
    (moderateContent api content).flagged = false ∧
    ∀ (env : Env) (w : WebhookBody),
      processMessage { env with moderationApi := fun _ => Except.error e } w =
        processMessage
          { env with moderationApi := fun _ => Except.ok { flagged := false, categories := [] } } w := by
  constructor
  · unfold moderateContent
    rw [h]
  · intro env w
    rfl

/-- C3 witness at a concrete throwing capability. -/
theorem claim_C3_moderation_fail_open_witness :
    (moderateContent (fun _ => Except.error "boom") "x").flagged = false :=
  (claim_C3_moderation_fail_open (fun _ => Except.error "boom") "x" "boom" rfl).1

/-- C2: when the guard snapshot holds the inbound row together with a
strictly newer role-user row of the same user, the staleness check reports
stale and the run stops at the guard, persisting no assistant reply and
sending nothing; with no such newer row the check reports not stale. -/
theorem claim_C2_staleness_guard (env : Env) (w : WebhookBody) (md : MessageData)
    (user : User) (g hist : Store) (inbound : Message) (resp : String)
    (hx : extractMessageData w = .ok md)
    (hu : env.userOutcome = .ok user)
    (hban : user.isBanned = false)
    (hmedia : md.hasMedia = false)
    (hbody : jsToLower md.body ≠ "clear")
    (hmod : (moderateContent env.moderationApi md.body).flagged = false)
    (hcf : env.createFails = false)
    (hh : env.historyDb = .ok hist)
    (hgen : getChatCompletion env.promptFetch env.complete
        ((getConversationHistory hist user.id).map toAppMessage) (user.name.getD "") =
        .ok resp)
    (hg : env.guardDb = .ok g)
    (hfind : g.find? (fun m => decide (m.id = env.newMessageId)) = some inbound) :
    ((∃ m2 ∈ g, m2.userId = user.id ∧ m2.role = MessageRole.user ∧
          inbound.createdAt < m2.createdAt) →
        hasNewerMessages env.guardDb user.id env.newMessageId = true ∧
        processMessage env w =
          { result := RunResult.returned
              { success := false, error := some "Newer messages found. Skipping response." },
            effects := [Effect.persisted
              { userId := user.id, role := MessageRole.user, type := MessageType.text,
                content := md.body, mediaTwilioUrl := md.mediaTwilioUrl,
                isForwarded := md.isFordwarded }] }) ∧
    ((¬ ∃ m2 ∈ g, m2.userId = user.id ∧ m2.role = MessageRole.user ∧
          inbound.createdAt < m2.createdAt) →
        hasNewerMessages env.guardDb user.id env.newMessageId = false) := by
  have hiff : hasNewerMessages env.guardDb user.id env.newMessageId = true ↔
      ∃ m2 ∈ g, m2.userId = user.id ∧ m2.role = MessageRole.user ∧
        inbound.createdAt < m2.createdAt := by
    rw [hg]
    exact hasNewerMessagesPure_iff g user.id env.newMessageId inbound hfind
  have hrun := run_to_dispatch env w md user hist resp hx hu hban hmedia hbody hmod hcf
    hh hgen
  constructor
  · intro hex
    have hstale := hiff.mpr hex
    refine ⟨hstale, ?_⟩
    rw [hrun]
    unfold dispatchPhase
    rw [hstale]
    simp only [if_true]
  · intro hnex
    exact Bool.eq_false_iff.mpr fun h2 => hnex (hiff.mp h2)

/-- C2 witness: messages A (t=1, the one being answered) and B (t=2) both
persisted when the guard runs; the run for A suppresses its reply. -/
theorem claim_C2_staleness_guard_witness :
    hasNewerMessages (Except.ok gDemo) 1 10 = true ∧
    processMessage envStale wDemo =
      { result := RunResult.returned
          { success := false, error := some "Newer messages found. Skipping response." },
        effects := [Effect.persisted { userId := 1, role := MessageRole.user,
                                       type := MessageType.text, content := "hello" }] } := by
  exact (claim_C2_staleness_guard envStale wDemo mdDemo userDemo gDemo [] inboundDemo
    "reply" rfl rfl rfl rfl (by decide) rfl rfl rfl rfl rfl rfl).1
    ⟨{ id := 11, userId := 1, role := MessageRole.user, type := MessageType.text,
       content := "again", createdAt := 2 }, by decide, rfl, rfl, by decide⟩

/-- C4: on a non-suppressed reply the run first persists the assistant
message and only afterwards invokes the send with the user address and the
reply text; with a failing provider the persisted assistant message stays
in the effects. -/
theorem claim_C4_persist_then_send (env : Env) (w : WebhookBody) (md : MessageData)
    (user : User) (hist : Store) (resp : String)
    (hx : extractMessageData w = .ok md)
    (hu : env.userOutcome = .ok user)
    (hban : user.isBanned = false)
    (hmedia : md.hasMedia = false)
    (hbody : jsToLower md.body ≠ "clear")
    (hmod : (moderateContent env.moderationApi md.body).flagged = false)
    (hcf : env.createFails = false)
    (hh : env.historyDb = .ok hist)
    (hgen : getChatCompletion env.promptFetch env.complete
        ((getConversationHistory hist user.id).map toAppMessage) (user.name.getD "") =
        .ok resp)
    (hns : hasNewerMessages env.guardDb user.id env.newMessageId = false) :
    processMessage env w =
      { result := RunResult.returned { success := true },
        effects := [Effect.persisted { userId := user.id, role := MessageRole.user,
                                       type := MessageType.text, content := md.body,
                                       mediaTwilioUrl := md.mediaTwilioUrl,
                                       isForwarded := md.isFordwarded },
                    Effect.persisted { userId := user.id, role := MessageRole.assistant,
                                       type := MessageType.text, content := resp },
                    Effect.sent user.phone resp
                      (sendWhatsAppMessage env.sendProvider user.phone resp)] } ∧
    (processMessage { env with sendProvider := Except.error () } w).effects =
      [Effect.persisted { userId := user.id, role := MessageRole.user,
                          type := MessageType.text, content := md.body,
                          mediaTwilioUrl := md.mediaTwilioUrl,
                          isForwarded := md.isFordwarded },
       Effect.persisted { userId := user.id, role := MessageRole.assistant,
                          type := MessageType.text, content := resp },
       Effect.sent user.phone resp { success := false, messageSid := none,
                                     hasError := true }] := by
  have main : ∀ env2 : Env, env2.userOutcome = .ok user →
      (moderateContent env2.moderationApi md.body).flagged = false →
      env2.createFails = false → env2.historyDb = .ok hist →
      getChatCompletion env2.promptFetch env2.complete
        ((getConversationHistory hist user.id).map toAppMessage) (user.name.getD "") =
        .ok resp →
      hasNewerMessages env2.guardDb user.id env2.newMessageId = false →
      processMessage env2 w =
        { result := RunResult.returned { success := true },
          effects := [Effect.persisted { userId := user.id, role := MessageRole.user,
                                         type := MessageType.text, content := md.body,
                                         mediaTwilioUrl := md.mediaTwilioUrl,
                                         isForwarded := md.isFordwarded },
                      Effect.persisted { userId := user.id, role := MessageRole.assistant,
                                         type := MessageType.text, content := resp },
                      Effect.sent user.phone resp
                        (sendWhatsAppMessage env2.sendProvider user.phone resp)] } := by
    intro env2 hu2 hmod2 hcf2 hh2 hgen2 hns2
    rw [run_to_dispatch env2 w md user hist resp hx hu2 hban hmedia hbody hmod2 hcf2
      hh2 hgen2]
    rw [dispatchPhase_not_stale env2 md.from_ user _ env2.newMessageId resp hns2 hcf2]
    rfl
  refine ⟨main env hu hmod hcf hh hgen hns, ?_⟩
  rw [main { env with sendProvider := Except.error () } hu hmod hcf hh hgen hns]
  rfl

/-- C4 witness: a concrete run with a failing provider keeps the persisted
assistant reply and records the failed send after it. -/
theorem claim_C4_persist_then_send_witness :
    processMessage envSendFail wDemo =
      { result := RunResult.returned { success := true },
        effects := [Effect.persisted { userId := 1, role := MessageRole.user,
                                       type := MessageType.text, content := "hello" },
                    Effect.persisted { userId := 1, role := MessageRole.assistant,
                                       type := MessageType.text, content := "reply" },
                    Effect.sent "+1" "reply"
                      (sendWhatsAppMessage (Except.error ()) "+1" "reply")] } := by
  exact (claim_C4_persist_then_send envSendFail wDemo mdDemo userDemo [] "reply"
    rfl rfl rfl rfl (by decide) rfl rfl rfl rfl rfl).1

/-- C10: sendWhatsAppMessage returns a failure value instead of throwing,
and a run whose reply was persisted but whose delivery failed still
resolves successfully, the failure invisible in the result. -/
theorem claim_C10_send_failure_invisible (env : Env) (w : WebhookBody) (md : MessageData)
    (user : User) (hist : Store) (resp : String)
    (hx : extractMessageData w = .ok md)
    (hu : env.userOutcome = .ok user)
    (hban : user.isBanned = false)
    (hmedia : md.hasMedia = false)
    (hbody : jsToLower md.body ≠ "clear")
    (hmod : (moderateContent env.moderationApi md.body).flagged = false)
    (hcf : env.createFails = false)
    (hh : env.historyDb = .ok hist)
    (hgen : getChatCompletion env.promptFetch env.complete
        ((getConversationHistory hist user.id).map toAppMessage) (user.name.getD "") =
        .ok resp)
    (hns : hasNewerMessages env.guardDb user.id env.newMessageId = false)
    (hsp : env.sendProvider = Except.error ()) :
    (∀ to_ body, sendWhatsAppMessage env.sendProvider to_ body =
      { success := false, messageSid := none, hasError := true }) ∧
    processMessage env w =
      { result := RunResult.returned { success := true },
        effects := [Effect.persisted { userId := user.id, role := MessageRole.user,
                                       type := MessageType.text, content := md.body,
                                       mediaTwilioUrl := md.mediaTwilioUrl,
                                       isForwarded := md.isFordwarded },
                    Effect.persisted { userId := user.id, role := MessageRole.assistant,
                                       type := MessageType.text, content := resp },
                    Effect.sent user.phone resp { success := false, messageSid := none,
                                                  hasError := true }] } := by
  have hsend : ∀ to_ body, sendWhatsAppMessage env.sendProvider to_ body =
      { success := false, messageSid := none, hasError := true } := by
    intro to_ body
    rw [hsp]
    rfl
  refine ⟨hsend, ?_⟩
  rw [run_to_dispatch env w md user hist resp hx hu hban hmedia hbody hmod hcf hh hgen]
  rw [dispatchPhase_not_stale env md.from_ user _ env.newMessageId resp hns hcf]
  rw [hsend user.phone resp]
  rfl

/-- C10 witness: a concrete run with a failing provider still resolves with
success. -/
theorem claim_C10_send_failure_invisible_witness :
    processMessage envSendFail wDemo =
      { result := RunResult.returned { success := true },
        effects := [Effect.persisted { userId := 1, role := MessageRole.user,
                                       type := MessageType.text, content := "hello" },
                    Effect.persisted { userId := 1, role := MessageRole.assistant,
                                       type := MessageType.text, content := "reply" },
                    Effect.sent "+1" "reply" { success := false, messageSid := none,
                                               hasError := true }] } := by
  exact (claim_C10_send_failure_invisible envSendFail wDemo mdDemo userDemo [] "reply"
    rfl rfl rfl rfl (by decide) rfl rfl rfl rfl rfl rfl).2

/-- C7 counterexample: with everything else succeeding, a failing history
query makes the run abort to the error path (generic notice, failure
result), while the same run with an empty history dispatches successfully:
the history query is not fail-open. -/
theorem claim_C7_counterexample :
    (processMessage envHistErr wDemo).result =
      RunResult.returned { success := false, error := some errorResultText } ∧
    (processMessage envHistEmpty wDemo).result =
      RunResult.returned { success := true } ∧
    processMessage envHistErr wDemo ≠ processMessage envHistEmpty wDemo := by
  refine ⟨rfl, rfl, by decide⟩

/-- C7 amended: the staleness query fails open (a failing guard query
reports not stale and the reply is still dispatched), but a failing history
query is rethrown and aborts the run to the error path instead of being
treated as an empty history. -/
theorem claim_C7_query_failure_policy :
    (∀ (u mid : Nat), hasNewerMessages (Except.error ()) u mid = false) ∧
    (∀ (env : Env) (w : WebhookBody) (md : MessageData) (user : User) (hist : Store)
        (resp : String),
      extractMessageData w = .ok md → env.userOutcome = .ok user →
      user.isBanned = false → md.hasMedia = false → jsToLower md.body ≠ "clear" →
      (moderateContent env.moderationApi md.body).flagged = false →
      env.createFails = false → env.historyDb = .ok hist →
      getChatCompletion env.promptFetch env.complete
        ((getConversationHistory hist user.id).map toAppMessage) (user.name.getD "") =
        .ok resp →
      env.guardDb = Except.error () →
      (processMessage env w).result = RunResult.returned { success := true } ∧
      Effect.sent user.phone resp (sendWhatsAppMessage env.sendProvider user.phone resp) ∈
        (processMessage env w).effects) ∧
    (∀ (env : Env) (w : WebhookBody) (md : MessageData) (user : User),
      extractMessageData w = .ok md → env.userOutcome = .ok user →
      user.isBanned = false → md.hasMedia = false → jsToLower md.body ≠ "clear" →
      (moderateContent env.moderationApi md.body).flagged = false →
      env.createFails = false → env.historyDb = Except.error () →
      processMessage env w = catchPath env md.from_
        [Effect.persisted { userId := user.id, role := MessageRole.user,
                            type := MessageType.text, content := md.body,
                            mediaTwilioUrl := md.mediaTwilioUrl,
                            isForwarded := md.isFordwarded }]) := by
  refine ⟨fun u mid => rfl, ?_, ?_⟩
  · intro env w md user hist resp hx hu hban hmedia hbody hmod hcf hh hgen hg
    have hns : hasNewerMessages env.guardDb user.id env.newMessageId = false := by
      rw [hg]
      rfl
    have hrun : processMessage env w =
        { result := RunResult.returned { success := true },
          effects := [Effect.persisted { userId := user.id, role := MessageRole.user,
                                         type := MessageType.text, content := md.body,
                                         mediaTwilioUrl := md.mediaTwilioUrl,
                                         isForwarded := md.isFordwarded },
                      Effect.persisted { userId := user.id, role := MessageRole.assistant,
                                         type := MessageType.text, content := resp },
                      Effect.sent user.phone resp
                        (sendWhatsAppMessage env.sendProvider user.phone resp)] } := by
      rw [run_to_dispatch env w md user hist resp hx hu hban hmedia hbody hmod hcf
        hh hgen]
      rw [dispatchPhase_not_stale env md.from_ user _ env.newMessageId resp hns hcf]
      rfl
    rw [hrun]
    exact ⟨rfl, by simp⟩
  · intro env w md user hx hu hban hmedia hbody hmod hcf hh
    rw [run_to_history env w md user hx hu hban hmedia hbody hmod hcf]
    unfold historyPhase getConversationHistoryRun
    rw [hh]

/-- C7 witness: a failing staleness query still dispatches; the fail-open
value of the guard on a query error is false. -/
theorem claim_C7_query_failure_policy_witness :
    hasNewerMessages (Except.error ()) 1 10 = false ∧
    (processMessage envGuardErr wDemo).result = RunResult.returned { success := true } := by
  refine ⟨claim_C7_query_failure_policy.1 1 10, ?_⟩
  exact (claim_C7_query_failure_policy.2.1 envGuardErr wDemo mdDemo userDemo [] "reply"
    rfl rfl rfl rfl (by decide) rfl rfl rfl rfl rfl).1

end WhatsappAgent
